import Mathlib

/-! Verification of the rendering and input-decoding engine of a terminal
chat client.  The definitions below are shallow embeddings of the Python
source files `tg/views.py` and `tg/formatters.py`: pure functions become
Lean functions, dictionaries become structures, and external collaborators
that are not part of the two source files (the curses library, the `Model`
data provider, the `config`/`utils`/`colors`/`tdlib`/`msg` helper modules)
become explicit parameters or small definitions modelled from the spec,
each marked as such in its doc comment. -/

set_option maxRecDepth 4096

namespace Tg

/-- One styled run of text; embeds `FormattedText` (formatters.py lines 11-14):
a piece of text together with its curses attribute bitmask. -/
structure FormattedText where
  text : String
  attributes : Nat
  deriving DecidableEq

/-- One styled line; embeds `FormattedLine` (formatters.py lines 16-21):
an ordered list of styled runs. -/
structure FormattedLine where
  parts : List FormattedText
  deriving DecidableEq

/-- Python slice `xs[:k]` for an integer bound `k`: a negative bound counts
from the end of the list. -/
def pyTake {L : Type} (xs : List L) (k : Int) : List L :=
  if k < 0 then xs.take ((xs.length : Int) + k).toNat else xs.take k.toNat

/-- Python slice `xs[-k:]` for `k > 0`: the last `k` elements (the whole
list when `k` is at least the length). -/
def pyTakeLast {L : Type} (xs : List L) (k : Nat) : List L :=
  xs.drop (xs.length - k)

/-- Loop body of `MsgView._collect_msgs_to_draw` (views.py lines 282-320),
as a recursion over the `(msg_idx, msg_item)` list with the mutable state
`lines_available` and `collected_items` passed explicitly.  The message
formatter applied inside the loop (views.py line 287-288, a `MsgFormatter`
call at the view's width) is abstracted as the parameter `fmt`, applied to
the `is_selected_msg` flag and the message, so the blocks may have any
height distribution; `latestOnTop` is `config.LATEST_MSG_ON_TOP`. -/
def collectLoop {α L : Type} (fmt : Bool → α → List L) (latestOnTop : Bool)
    (current : Int) :
    List (Int × α) → Int → List (List L) → List (List L)
  | [], _, acc => acc
  | (idx, m) :: rest, la, acc =>
    let msg_lines := fmt (current == idx) m
    let needed : Int := msg_lines.length
    let la' := la - needed
    if la' < 0 then
      if idx == current then
        acc ++ [pyTake msg_lines (needed + la')]
      else if idx < current then
        collectLoop fmt latestOnTop current rest (la' + needed)
          ((if acc.length > 0 then acc.tail else acc) ++ [msg_lines])
      else
        let selected_lines :=
          if latestOnTop then
            pyTake msg_lines (la'.natAbs : Int)
          else
            let cnt : Int := needed - (la'.natAbs : Int)
            if cnt > 0 then pyTakeLast msg_lines cnt.toNat else []
        if selected_lines.length > 0 then acc ++ [selected_lines] else acc
    else
      collectLoop fmt latestOnTop current rest la' (acc ++ [msg_lines])

/-- Embeds `MsgView._collect_msgs_to_draw` (views.py lines 277-320): the
initial budget is `self.h - self.header_formatter.height` (line 283) and
the collected list starts empty (line 282). -/
def collect_msgs_to_draw {α L : Type} (fmt : Bool → α → List L)
    (latestOnTop : Bool) (h headerH : Int) (current : Int)
    (msgs : List (Int × α)) : List (List L) :=
  collectLoop fmt latestOnTop current msgs (h - headerH) []

/-- Total number of styled lines across all collected blocks. -/
def totalLines {L : Type} (out : List (List L)) : Nat :=
  (out.map List.length).sum

/-- Fixed per-item height of a chat row: the `height` class attribute of
`ChatFormatter` (formatters.py line 258). -/
def ChatFormatter.height : Nat := 2

/-- The `limit` local of `ChatView.draw` (views.py line 240): the number of
chat items rendered, `int((self.h - header_height) / 2)`, expressed over
the available rows `R = self.h - header_height` (nonnegative here, where
Python's `int()` truncation agrees with floor division). -/
def ChatView.limit (R : Nat) : Nat := R / 2

/-- The scroll offset computed by `ChatView.draw` (views.py lines 239-242)
for focal index `current`. -/
def ChatView.offset (R current : Nat) : Nat :=
  if current ≥ ChatView.limit R then current - ChatView.limit R + 1 else 0

/-- The chat items rendered by `ChatView.draw` (views.py line 244): the
Python slice `chats[offset : limit + offset]`. -/
def ChatView.visible {γ : Type} (R current : Nat) (chats : List γ) : List γ :=
  (chats.drop (ChatView.offset R current)).take (ChatView.limit R)

/-- Follows the spec's words, for comparison with `ChatView.offset`: the
claimed centering formula `offset = max(0, i - floor(R/(2H)) + 1)`. -/
def specChatOffset (R i H : Nat) : Int :=
  max 0 ((i : Int) - ((R / (2 * H) : Nat) : Int) + 1)

/-- Modelled from the spec: the curses reverse-video attribute bit
(`tg.colors.reverse = curses.A_REVERSE`, bit 18; colors.py is not under
src/).  Attribute bitmasks compose by bitwise or. -/
def reverse : Nat := 2 ^ 18

/-- Modelled from the spec: the curses dim attribute bit
(`tg.colors.dim = curses.A_DIM`, bit 20; colors.py is not under src/). -/
def dim : Nat := 2 ^ 20

/-- Modelled from the spec: per-code-point column width, 1 or 2 columns,
with the terminal's wide-character table as the parameter `wide`. -/
def charWidth (wide : Char → Bool) (c : Char) : Nat :=
  if wide c then 2 else 1

/-- Modelled from the spec: `tg.utils.string_len_dwc` (utils.py is not
under src/), the display width of a string: the sum of the per-code-point
column widths. -/
def string_len_dwc (wide : Char → Bool) (s : String) : Nat :=
  (s.data.map (charWidth wide)).sum

/-- Modelled from the spec: the longest head of a character list whose
display width does not exceed the limit. -/
def takeWidthGo (wide : Char → Bool) : List Char → Int → List Char
  | [], _ => []
  | c :: cs, lim =>
    if (charWidth wide c : Int) ≤ lim then
      c :: takeWidthGo wide cs (lim - charWidth wide c)
    else []

/-- Modelled from the spec: `tg.utils.truncate_to_len` (utils.py is not
under src/): a string already fitting the limit is returned unchanged,
otherwise it is cut down to the limit. -/
def truncate_to_len (wide : Char → Bool) (s : String) (limit : Int) : String :=
  if (string_len_dwc wide s : Int) ≤ limit then s
  else String.mk (takeWidthGo wide s.data limit)

/-- Python string repetition `c * n` of a single character by an integer
count: a nonpositive count yields the empty string. -/
def pyRepeatChar (c : Char) (n : Int) : String :=
  String.mk (List.replicate n.toNat c)

/-- The Python format `f"{n: >4}"` (formatters.py line 358): the decimal
digits of `n`, left-padded with spaces to at least 4 characters, so the
number is right-aligned in its field. -/
def pyAlignRight4 (n : Nat) : String :=
  let s := toString n
  if s.length < 4 then String.mk (List.replicate (4 - s.length) ' ') ++ s
  else s

/-- Follows the spec's words, for comparison with `pyAlignRight4`: a
right-padded 4-character count appends its fill spaces after the digits. -/
def specRightPad4 (n : Nat) : String :=
  let s := toString n
  if s.length < 4 then s ++ String.mk (List.replicate (4 - s.length) ' ')
  else s

/-- The Python `last_msg.replace("\n", " ")` of formatters.py line 383: the
pattern is the single newline character, so the replacement is a character
map. -/
def replaceNl (s : String) : String :=
  String.mk (s.data.map fun c => if c = '\n' then ' ' else c)

/-- Helper of `splitNl`: splits a character list at newlines, keeping the
reversed current segment as the accumulator. -/
def splitNlGo : List Char → List Char → List String
  | [], acc => [String.mk acc.reverse]
  | c :: cs, acc =>
    if c = '\n' then String.mk acc.reverse :: splitNlGo cs []
    else splitNlGo cs (c :: acc)

/-- The Python `msg.split("\n")` of formatters.py line 115: the segments of
a string between newlines; an empty string yields one empty segment. -/
def splitNl (s : String) : List String :=
  splitNlGo s.data []

/-- Python truthiness of an optional integer: `None` and `0` are falsy. -/
def pyTruthyOptInt : Option Int → Bool
  | none => false
  | some n => n != 0

/-- Python truthiness of an optional string: `None` and the empty string
are falsy. -/
def pyTruthyOptStr : Option String → Bool
  | none => false
  | some s => s != ""

/-- Modelled from the spec: the chat types distinguished by
`tg.tdlib.get_chat_type` (tdlib.py is not under src/). -/
inductive ChatType where
  | chatTypePrivate
  | chatTypeBasicGroup
  | chatTypeSupergroup
  | channel
  | chatTypeSecret
  deriving DecidableEq

/-- Modelled from the spec: `tg.tdlib.is_group` holds for basic groups and
supergroups. -/
def is_group : ChatType → Bool
  | ChatType.chatTypeBasicGroup => true
  | ChatType.chatTypeSupergroup => true
  | _ => false

/-- The Python `chat_type and is_group(chat_type)` test (formatters.py
lines 374-375, 386-387): an unrecognized (absent) type is falsy. -/
def chatTypeIsGroup : Option ChatType → Bool
  | some t => is_group t
  | none => false

/-- The subset of a `last_message` dictionary read by the formatters
(formatters.py lines 266-277, 326-340, 392-400): its id, its unix date and
`msg["sender_id"].get("user_id")`. -/
structure ChatMsg where
  id : Int
  date : Nat
  sender_user_id : Option Int
  deriving DecidableEq

/-- The subset of a chat dictionary read by the formatters: the fields used
by `MsgFormatter.flags` (formatters.py lines 47-79) and by `ChatFormatter`
(formatters.py lines 257-400).  `chat_type` is the result of
`get_chat_type(chat)` (`none` when unrecognized), `is_pinned` is `none`
when the key is absent, and `mute_for` is
`chat["notification_settings"]["mute_for"]`. -/
structure Chat where
  id : Int
  title : String
  last_message : Option ChatMsg
  last_read_inbox_message_id : Int
  last_read_outbox_message_id : Int
  is_pinned : Option Bool
  mute_for : Nat
  is_marked_as_unread : Bool
  unread_count : Nat
  chat_type : Option ChatType
  deriving DecidableEq

/-- The subset of a message (read through `MsgProxy`; msg.py is not under
src/) used by `MsgFormatter.flags`: the id, the sender id, whether forward
info is present, the `@type` string of the optional `sending_state`, and
the edit timestamp (0 when never edited, the Python falsy case). -/
structure Msg where
  msg_id : Int
  sender_id : Int
  has_forward : Bool
  sending_state : Option String
  edit_date : Nat
  deriving DecidableEq

/-- The external collaborators of `MsgFormatter` that are not part of the
two source files: the per-chat selection sets of `model.selected`, the
identity check `model.is_me`, the `config.MSG_FLAGS` label table, the
timestamp and sender-label rendering (stdlib datetime and `Model` user
lookups), the curses colors returned by `tg.colors.get_color`, and the
word wrapper `tg.utils.split_string_dwc`. -/
structure MsgEnv where
  selectedIds : Int → List Int
  is_me : Int → Bool
  msgFlagLabel : String → String
  timeOf : Msg → String
  senderOf : Msg → String
  time_color : Nat
  senderColorOf : String → Nat
  flags_color : Nat
  text_color : Nat
  wrap : String → Nat → List String

/-- The external collaborators of `ChatFormatter` that are not part of the
two source files: the terminal's wide-character table, the identity check
and user lookups of `Model`, the `config.CHAT_FLAGS` label table and the
`config.USE_CHAT_RANDOM_COLORS` toggle, the curses colors, the stdlib date
rendering used by `ChatFormatter.date`, and `MsgFormatter._parse_content`
applied to the last message (whose `MsgProxy` inputs are not under src/). -/
structure ChatEnv where
  wide : Char → Bool
  is_me : Int → Bool
  get_user_label : Int → String
  is_online : Int → Bool
  user_action : Int → Option Int × Option String
  chatFlagLabel : String → String
  use_random_colors : Bool
  cyan : Nat
  magenta : Nat
  white : Nat
  colorByStr : String → Nat
  fmtDate : Nat → String
  parseContent : ChatMsg → String

/-- The `states` dictionary lookup of `MsgFormatter` (formatters.py lines
29-32 and 73-75): the two known sending states map to short labels, any
other raw type string passes through unchanged. -/
def statesGet (s : String) : String :=
  if s = "messageSendingStateFailed" then "failed"
  else if s = "messageSendingStatePending" then "pending"
  else s

/-- Embeds `MsgFormatter.flags` (formatters.py lines 47-79) up to the final
label mapping and join: the list of flag names appended by the property, in
source order (selection, forward, the new/unseen/seen chain, sending state,
edited). -/
def MsgFormatter.flagsList (E : MsgEnv) (m : Msg) (chat : Chat) :
    List String :=
  (if m.msg_id ∈ E.selectedIds chat.id then ["selected"] else [])
  ++ (if m.has_forward then ["forwarded"] else [])
  ++ (if E.is_me m.sender_id = false
        ∧ m.msg_id > chat.last_read_inbox_message_id then ["new"]
      else if E.is_me m.sender_id = true
        ∧ m.msg_id > chat.last_read_outbox_message_id then
        (if E.is_me chat.id = false then ["unseen"] else [])
      else if E.is_me m.sender_id = true
        ∧ m.msg_id ≤ chat.last_read_outbox_message_id then ["seen"]
      else [])
  ++ (match m.sending_state with
      | some st => [statesGet st]
      | none => [])
  ++ (if m.edit_date ≠ 0 then ["edited"] else [])

/-- Embeds the final line of `MsgFormatter.flags` (formatters.py line 79):
each flag name goes through the `config.MSG_FLAGS` label table and the
labels are joined with spaces; an empty flag list yields the empty
string. -/
def MsgFormatter.flagsString (E : MsgEnv) (m : Msg) (chat : Chat) : String :=
  let fl := MsgFormatter.flagsList E m chat
  if fl ≠ [] then String.intercalate " " (fl.map E.msgFlagLabel) else ""

/-- Embeds `MsgFormatter._format_attributes` (formatters.py lines 97-98):
a selected message gets the reverse-video bit merged into the attribute
bitmask. -/
def MsgFormatter.format_attributes (selected : Bool) (a : Nat) : Nat :=
  if selected then a ||| reverse else a

/-- Embeds `MsgFormatter.format` (formatters.py lines 100-128).  The body
text assembled on lines 101-113 (message content, caption, link preview,
reply quote, inline keyboard, entity links, all through `MsgProxy` and
`Model` lookups that are not under src/) is abstracted as the already
assembled string `body`, and `E.wrap` is `tg.utils.split_string_dwc`.
Lines 115-128 are embedded directly: the body is split at newlines, each
physical line is wrapped at the width and the result flattened; a
three-run header line (time, sender, flags) gets `_format_attributes`
applied to each run's color, and each wrapped body line becomes a
single-run line carrying the plain text color. -/
def MsgFormatter.format (E : MsgEnv) (selected : Bool) (m : Msg)
    (chat : Chat) (body : String) (width : Nat) : List FormattedLine :=
  let msg_lines := ((splitNl body).map (fun l => E.wrap l width)).flatten
  let sender := E.senderOf m
  let header : FormattedLine :=
    ⟨[⟨" " ++ E.timeOf m,
        MsgFormatter.format_attributes selected E.time_color⟩,
      ⟨" " ++ sender,
        MsgFormatter.format_attributes selected (E.senderColorOf sender)⟩,
      ⟨" " ++ MsgFormatter.flagsString E m chat,
        MsgFormatter.format_attributes selected E.flags_color⟩]⟩
  header :: msg_lines.map (fun l => ⟨[⟨l, E.text_color⟩]⟩)

/-- The local-file state read by `MsgFormatter._get_download`
(formatters.py lines 246-255) through the message's content. -/
structure LocalFile where
  is_downloading_completed : Bool
  is_downloading_active : Bool
  downloaded_size : Nat
  deriving DecidableEq

/-- Embeds `MsgFormatter._get_download` (formatters.py lines 246-255):
`size` is `None` or the total size; Python's `if not size` also catches a
zero size, so the percentage division only runs on a nonzero size.  The
Python `int(d * 100 / size)` on nonnegative operands is floor division. -/
def MsgFormatter.getDownload (lf : LocalFile) (size : Option Nat) :
    Option String :=
  match size with
  | none => none
  | some s =>
    if s = 0 then none
    else if lf.is_downloading_completed then some "yes"
    else if lf.is_downloading_active then
      some (toString (lf.downloaded_size * 100 / s) ++ "%")
    else some "no"

/-- `model.is_me` applied to `msg["sender_id"].get("user_id")`
(formatters.py lines 329, 337): an absent user id is never the current
user. -/
def isMeOpt (E : ChatEnv) : Option Int → Bool
  | some u => E.is_me u
  | none => false

/-- Embeds the `date_color` property (formatters.py lines 279-282). -/
def ChatFormatter.date_color (E : ChatEnv) (selected : Bool) : Nat :=
  let c := E.cyan ||| dim
  if selected then c ||| reverse else c

/-- Embeds the `flags_color` property (formatters.py lines 284-287). -/
def ChatFormatter.flags_color (E : ChatEnv) (selected : Bool) : Nat :=
  if selected then E.magenta ||| reverse else E.magenta

/-- Embeds the `title_color` property (formatters.py lines 289-292). -/
def ChatFormatter.title_color (E : ChatEnv) (chat : Chat) (selected : Bool) :
    Nat :=
  let c := if E.use_random_colors then E.colorByStr chat.title else E.cyan
  if selected then c ||| reverse else c

/-- Embeds the `subtitle_color` property (formatters.py lines 294-297):
always dim, never reversed. -/
def ChatFormatter.subtitle_color (E : ChatEnv) : Nat :=
  E.white ||| dim

/-- Embeds the `sender_color` method (formatters.py lines 299-301). -/
def ChatFormatter.sender_color (E : ChatEnv) (sender : String) : Nat :=
  E.colorByStr sender ||| dim

/-- Embeds `ChatFormatter.date` (formatters.py lines 266-277).  The
datetime rendering of a present last message (today, this year, older)
uses the stdlib and the current clock and is abstracted as `E.fmtDate`;
the branch for an absent last message is embedded directly. -/
def ChatFormatter.date (E : ChatEnv) (chat : Chat) : String :=
  match chat.last_message with
  | none => "<No date>"
  | some m => E.fmtDate m.date

/-- Embeds `ChatFormatter._get_action_label` (formatters.py lines
370-379): both the actioner and the action must be truthy; group chats
prepend the actioner's label. -/
def ChatFormatter.actionLabel (E : ChatEnv) (chat : Chat) : Option String :=
  match E.user_action chat.id with
  | (some a, some act) =>
    if a ≠ 0 ∧ act ≠ "" then
      if chatTypeIsGroup chat.chat_type then
        some (E.get_user_label a ++ " " ++ (act ++ "..."))
      else some (act ++ "...")
    else none
  | _ => none

/-- Embeds `ChatFormatter._get_flags` (formatters.py lines 323-364) up to
the final label mapping and join: the list of appended flag strings, in
source order (the unseen/seen chain, action label, online, pinned, muted,
the unread/counter/placeholder chain, secret). -/
def ChatFormatter.flagsList (E : ChatEnv) (chat : Chat) : List String :=
  (match chat.last_message with
   | none => []
   | some msg =>
     if isMeOpt E msg.sender_user_id = true
        ∧ msg.id > chat.last_read_outbox_message_id
        ∧ E.is_me chat.id = false then ["unseen"]
     else if isMeOpt E msg.sender_user_id = true
        ∧ msg.id ≤ chat.last_read_outbox_message_id then ["seen"]
     else [])
  ++ (match ChatFormatter.actionLabel E chat with
      | some l => if l ≠ "" then [l] else []
      | none => [])
  ++ (if E.is_online chat.id then ["online"] else [])
  ++ (match chat.is_pinned with
      | some b => if b then ["pinned"] else []
      | none => [])
  ++ (if chat.mute_for ≠ 0 then ["muted"] else [])
  ++ (if chat.is_marked_as_unread then ["unread"]
      else if chat.unread_count ≠ 0 then
        [pyAlignRight4 (min 999 chat.unread_count)]
      else ["    "])
  ++ (if chat.chat_type = some ChatType.chatTypeSecret then ["secret"]
      else [])

/-- Embeds the tail of `ChatFormatter._get_flags` (formatters.py lines
365-368): flags are mapped through `config.CHAT_FLAGS`, joined with
spaces, and a nonempty label string gets a leading space. -/
def ChatFormatter.flagsString (E : ChatEnv) (chat : Chat) : String :=
  let label := String.intercalate " "
    ((ChatFormatter.flagsList E chat).map E.chatFlagLabel)
  if label ≠ "" then " " ++ label else label

/-- Embeds `ChatFormatter._get_last_msg` (formatters.py lines 392-400):
`MsgFormatter._parse_content` on the last message reads `MsgProxy`
accessors that are not under src/ and is abstracted as `E.parseContent`. -/
def ChatFormatter.getLastMsg (E : ChatEnv) (chat : Chat) :
    Option Int × String :=
  match chat.last_message with
  | none => (none, "<No messages yet>")
  | some m => (m.sender_user_id, E.parseContent m)

/-- Embeds `ChatFormatter._get_last_msg_data` (formatters.py lines
381-390): newlines in the message text are flattened to spaces; the sender
label is only kept for truthy user ids in group chats. -/
def ChatFormatter.getLastMsgData (E : ChatEnv) (chat : Chat) :
    Option String × String :=
  let um := ChatFormatter.getLastMsg E chat
  let last_msg := replaceNl um.2
  match um.1 with
  | some u =>
    if u ≠ 0 then
      if chatTypeIsGroup chat.chat_type then
        (some (E.get_user_label u), last_msg)
      else (none, last_msg)
    else (none, last_msg)
  | none => (none, last_msg)

/-- The spacer length computed in `ChatFormatter.format` (formatters.py
line 308): `width - len(date) - len(title) - len(flags) - 3` with display
widths, not clamped. -/
def ChatFormatter.spacer_len (E : ChatEnv) (chat : Chat) (width : Int) :
    Int :=
  width - (string_len_dwc E.wide (ChatFormatter.date E chat) : Int)
    - (string_len_dwc E.wide chat.title : Int)
    - (string_len_dwc E.wide (ChatFormatter.flagsString E chat) : Int) - 3

/-- Embeds `ChatFormatter.format` (formatters.py lines 303-321): a first
line of date, title, spacer and flags runs, and a second line of a
7-column indent, the optional sender label and the truncated subtitle.
The Python `" " * spacer_len` yields the empty string for a negative
length. -/
def ChatFormatter.format (E : ChatEnv) (chat : Chat) (selected : Bool)
    (width : Int) : List FormattedLine :=
  let data := ChatFormatter.getLastMsgData E chat
  let sender :=
    if pyTruthyOptStr data.1 then " " ++ data.1.getD "" ++ " " else ""
  let flags := ChatFormatter.flagsString E chat
  let first_line : FormattedLine :=
    ⟨[⟨" " ++ ChatFormatter.date E chat,
        ChatFormatter.date_color E selected⟩,
      ⟨" " ++ chat.title, ChatFormatter.title_color E chat selected⟩,
      ⟨pyRepeatChar ' ' (ChatFormatter.spacer_len E chat width),
        ChatFormatter.title_color E chat selected⟩,
      ⟨flags ++ " ", ChatFormatter.flags_color E selected⟩]⟩
  let second_line : FormattedLine :=
    ⟨[⟨"       ", ChatFormatter.subtitle_color E⟩,
      ⟨sender, ChatFormatter.sender_color E sender⟩,
      ⟨truncate_to_len E.wide data.2
          (width - (string_len_dwc E.wide sender : Int) - 10),
        ChatFormatter.subtitle_color E⟩]⟩
  [first_line, second_line]

/-- Total display width of a styled line: the sum of its runs' widths. -/
def lineWidth (wide : Char → Bool) (l : FormattedLine) : Nat :=
  (l.parts.map fun p => string_len_dwc wide p.text).sum

/-- `MAX_KEYBINDING_LENGTH` (views.py line 16). -/
def MAX_KEYBINDING_LENGTH : Nat := 5

/-- `MULTICHAR_KEYBINDINGS` (views.py lines 17-27).  `config.LAYOUT_MAPPING`
is empty by default (config.py is not under src/), so no remapped alias
sequences are appended by lines 28-35. -/
def MULTICHAR_KEYBINDINGS : List String :=
  ["dd", "sd", "sp", "sa", "sv", "sn", "ns", "ng", "bp"]

/-- Modelled from the spec: `curses.unctrl(ch).decode()` (views.py line
99), the platform's raw-to-printable mapping.  Printable ASCII maps to
itself, control codes to caret notation, the delete code to `^?`, high
bytes to meta notation; codes outside the byte range raise (views.py lines
100-102), modelled as `none`. -/
def unctrl (ch : Int) : Option String :=
  if ch < 0 ∨ ch > 255 then none
  else if ch < 32 then
    some ("^" ++ String.singleton (Char.ofNat (ch.toNat + 64)))
  else if ch < 127 then some (String.singleton (Char.ofNat ch.toNat))
  else if ch = 127 then some "^?"
  else some ("M-" ++ String.singleton (Char.ofNat (ch.toNat - 128)))

/-- The Python `key.isdigit()` test: nonempty and all decimal digits. -/
def pyIsDigit (s : String) : Bool :=
  !s.data.isEmpty && s.data.all Char.isDigit

/-- Modelled from the spec: `tg.utils.num` (utils.py is not under src/):
parse a decimal string, falling back to the default; the empty repeat
prefix yields the default 1. -/
def num (s : String) (d : Nat) : Nat :=
  if pyIsDigit s then
    s.data.foldl (fun acc c => acc * 10 + (c.toNat - 48)) 0
  else d

/-- The two-byte branch of `View.get_keys` (views.py lines 93-95): a lead
byte 208 or 209 plus the following byte decode as one two-byte UTF-8 code
point. -/
def utf8Pair (ch ch2 : Int) : String :=
  String.singleton (Char.ofNat ((ch.toNat % 32) * 64 + ch2.toNat % 64))

/-- The Python `p.startswith(pre)` test of views.py line 109. -/
def pyStartsWith (p pre : String) : Bool :=
  pre.data.isPrefixOf p.data

/-- Loop of `View.get_keys` (views.py lines 89-112) over an input stream
of raw key codes indexed by read count, with the accumulated repeat prefix
and key string passed explicitly; the fuel counts the remaining loop
iterations.  Returns the final `(repeat_factor, keys)` pair; digits extend
the repeat prefix and continue, an undecodable code breaks, and otherwise
the loop breaks exactly when the accumulated keys match a keybinding or
extend no keybinding. -/
def getKeysGo (bindings : List String) (stream : Nat → Int) :
    Nat → Nat → String → String → String × String
  | 0, _, rf, keys => (rf, keys)
  | fuel + 1, pos, rf, keys =>
    let ch := stream pos
    if ch = 208 ∨ ch = 209 then
      let keys' := keys ++ utf8Pair ch (stream (pos + 1))
      if bindings.all (fun p => p == keys' || !(pyStartsWith p keys')) then
        (rf, keys')
      else getKeysGo bindings stream fuel (pos + 2) rf keys'
    else
      match unctrl ch with
      | none => (rf, keys)
      | some key =>
        if pyIsDigit key then
          getKeysGo bindings stream fuel (pos + 1) (rf ++ key) keys
        else
          let keys' := keys ++ key
          if bindings.all (fun p => p == keys' || !(pyStartsWith p keys')) then
            (rf, keys')
          else getKeysGo bindings stream fuel (pos + 1) rf keys'

/-- Embeds `View.get_keys` (views.py lines 88-114): runs up to
`MAX_KEYBINDING_LENGTH` iterations of the decode loop on the stream of raw
codes (`stdscr.getch`, modelled as a stream indexed by read count) and
returns the repeat count (default 1) with the accumulated keys, or the
`UNKNOWN` sentinel when no key was accumulated. -/
def View.get_keys (bindings : List String) (stream : Nat → Int) :
    Nat × String :=
  let rk := getKeysGo bindings stream MAX_KEYBINDING_LENGTH 0 "" ""
  (num rk.1 1, if rk.2 = "" then "UNKNOWN" else rk.2)

/-- A concrete chat-side environment for concrete evaluations: narrow
characters only, no online or typing lookups, identity label tables. -/
def E0 : ChatEnv where
  wide := fun _ => false
  is_me := fun _ => false
  get_user_label := fun _ => "user"
  is_online := fun _ => false
  user_action := fun _ => (none, none)
  chatFlagLabel := id
  use_random_colors := false
  cyan := 0
  magenta := 0
  white := 0
  colorByStr := fun _ => 0
  fmtDate := fun _ => "01 Jan 20"
  parseContent := fun _ => "hello"

/-- A concrete message-side environment for concrete evaluations. -/
def E0m : MsgEnv where
  selectedIds := fun _ => []
  is_me := fun _ => false
  msgFlagLabel := id
  timeOf := fun _ => "00:00:00"
  senderOf := fun _ => "alice"
  time_color := 0
  senderColorOf := fun _ => 0
  flags_color := 0
  text_color := 0
  wrap := fun s _ => [s]

/-- A minimal concrete chat: no last message, nothing pinned or muted. -/
def chatA : Chat where
  id := 1
  title := "t"
  last_message := none
  last_read_inbox_message_id := 0
  last_read_outbox_message_id := 0
  is_pinned := none
  mute_for := 0
  is_marked_as_unread := false
  unread_count := 0
  chat_type := none

/-- The chat of claim C5: unread count 1500, not marked unread, not
pinned, muted, of secret type. -/
def chatSecret : Chat where
  id := 2
  title := "s"
  last_message := none
  last_read_inbox_message_id := 0
  last_read_outbox_message_id := 0
  is_pinned := none
  mute_for := 300
  is_marked_as_unread := false
  unread_count := 1500
  chat_type := some ChatType.chatTypeSecret

/-- A concrete unedited, unforwarded incoming message. -/
def msgA : Msg where
  msg_id := 1
  sender_id := 2
  has_forward := false
  sending_state := none
  edit_date := 0

/-- C1: on a window of height 6 with a header of height 2 (budget 4), blocks
of heights 1, 5, 1 with the focal index 2 make the windower return 6 styled
lines in total: the eviction branch reclaims the height of the new block
instead of the height of the evicted one, so the returned window exceeds the
row budget. -/
theorem c1_budget_overflow :
    totalLines (collect_msgs_to_draw (fun _ (b : List Nat) => b) false 6 2 2
        [(0, [100]), (1, [200, 201, 202, 203, 204]), (2, [300])]) = 6
    ∧ ¬ totalLines (collect_msgs_to_draw (fun _ (b : List Nat) => b) false 6 2 2
        [(0, [100]), (1, [200, 201, 202, 203, 204]), (2, [300])]) ≤ 4 := by
  decide

/-- C2 counterexample: with budget 2 (height 4, header 2), a 2-line block at
index 0 followed by the 1-line focal block at index 1, the windower returns
the first block in full and an empty slice for the focal block: no line of
the focal block (line 20) is present although the budget is positive. -/
theorem c2_focal_dropped :
    collect_msgs_to_draw (fun _ (b : List Nat) => b) false 4 2 1
        [(0, [10, 11]), (1, [20])] = [[10, 11], []]
    ∧ (20 : Nat) ∉ (collect_msgs_to_draw (fun _ (b : List Nat) => b) false 4 2 1
        [(0, [10, 11]), (1, [20])]).flatten := by
  decide

/-- Either branch of a conditional append leaves the accumulator as a left
factor of the result. -/
theorem ite_self_append {β : Type} (C : Prop) [Decidable C] (acc : List β)
    (x : β) : ∃ suf, (if C then acc ++ [x] else acc) = acc ++ suf :=
  ⟨if C then [x] else [], by split_ifs <;> simp⟩

/-- Processing a run of blocks whose total height fits within the remaining
budget neither truncates nor evicts anything: each block of the run is
appended in full and the budget decreases by the run's total height. -/
theorem collectLoop_pass {α L : Type} (fmt : Bool → α → List L) (top : Bool)
    (current : Int) :
    ∀ (pre rest : List (Int × α)) (la : Int) (acc : List (List L)),
      (pre.map fun p => ((fmt (current == p.1) p.2).length : Int)).sum ≤ la →
      collectLoop fmt top current (pre ++ rest) la acc
        = collectLoop fmt top current rest
            (la - (pre.map fun p => ((fmt (current == p.1) p.2).length : Int)).sum)
            (acc ++ pre.map fun p => fmt (current == p.1) p.2) := by
  intro pre
  induction pre with
  | nil => intro rest la acc _; simp
  | cons p pre ih =>
    intro rest la acc hle
    obtain ⟨idx, m⟩ := p
    have hnn : 0 ≤ (pre.map fun p =>
        ((fmt (current == p.1) p.2).length : Int)).sum := by
      apply List.sum_nonneg
      intro x hx
      simp only [List.mem_map] at hx
      obtain ⟨q, _, rfl⟩ := hx
      positivity
    simp only [List.map_cons, List.sum_cons] at hle
    simp only [List.cons_append, collectLoop, List.append_eq]
    rw [if_neg (by omega)]
    rw [ih rest (la - ((fmt (current == idx) m).length : Int))
      (acc ++ [fmt (current == idx) m]) (by omega)]
    congr 1
    · simp only [List.map_cons, List.sum_cons]; ring
    · simp

/-- Once every remaining block lies past the focal index, the loop only
appends further items: the already-collected list is a left factor of the
final result. -/
theorem collectLoop_post {α L : Type} (fmt : Bool → α → List L) (top : Bool)
    (current : Int) :
    ∀ (rest : List (Int × α)) (la : Int) (acc : List (List L)),
      (∀ p ∈ rest, current < p.1) →
      ∃ suf, collectLoop fmt top current rest la acc = acc ++ suf := by
  intro rest
  induction rest with
  | nil => intro la acc _; exact ⟨[], by simp [collectLoop]⟩
  | cons p rest ih =>
    intro la acc hgt
    obtain ⟨idx, m⟩ := p
    have hidx : current < idx := hgt (idx, m) (by simp)
    simp only [collectLoop]
    by_cases hla : la - ((fmt (current == idx) m).length : Int) < 0
    · rw [if_pos hla, if_neg (by simp only [beq_iff_eq]; omega),
        if_neg (by omega)]
      exact ite_self_append _ acc _
    · rw [if_neg hla]
      obtain ⟨suf, hsuf⟩ := ih (la - ((fmt (current == idx) m).length : Int))
        (acc ++ [fmt (current == idx) m]) (fun q hq => hgt q (by simp [hq]))
      exact ⟨fmt (current == idx) m :: suf, by rw [hsuf]; simp⟩

/-- C2 (amended): whenever the blocks preceding the focal block together
need strictly fewer lines than the available budget `h - headerH`, and the
focal block is nonempty, the returned window contains a nonempty item that
is a prefix of the focal block: the focal block may be truncated but at
least one of its lines survives.  (The unamended claim fails when earlier
blocks consume the budget exactly: see the counterexample.) -/
theorem c2_focal_visible {α L : Type} (fmt : Bool → α → List L) (top : Bool)
    (h headerH current : Int) (pre post : List (Int × α)) (mf : α)
    (hpost : ∀ p ∈ post, current < p.1)
    (hsum : (pre.map fun p => ((fmt (current == p.1) p.2).length : Int)).sum
        < h - headerH)
    (hne : fmt true mf ≠ []) :
    ∃ item ∈ collect_msgs_to_draw fmt top h headerH current
        (pre ++ (current, mf) :: post),
      item ≠ [] ∧ ∃ n : Nat, item = (fmt true mf).take n := by
  unfold collect_msgs_to_draw
  rw [collectLoop_pass fmt top current pre ((current, mf) :: post)
    (h - headerH) [] (le_of_lt hsum)]
  have hlaf : 0 < h - headerH
      - (pre.map fun p => ((fmt (current == p.1) p.2).length : Int)).sum := by
    omega
  simp only [collectLoop, beq_self_eq_true, if_true, List.nil_append]
  by_cases hover : h - headerH
      - (pre.map fun p => ((fmt (current == p.1) p.2).length : Int)).sum
      - ((fmt true mf).length : Int) < 0
  · rw [if_pos hover]
    refine ⟨pyTake (fmt true mf)
      (((fmt true mf).length : Int)
        + (h - headerH
          - (pre.map fun p => ((fmt (current == p.1) p.2).length : Int)).sum
          - ((fmt true mf).length : Int))), by simp, ?_, ?_⟩
    · unfold pyTake
      rw [if_neg (by omega)]
      simp only [ne_eq, List.take_eq_nil_iff]
      push_neg
      constructor
      · omega
      · exact hne
    · unfold pyTake
      rw [if_neg (by omega)]
      exact ⟨_, rfl⟩
  · rw [if_neg hover]
    obtain ⟨suf, hsuf⟩ := collectLoop_post fmt top current post
      (h - headerH
        - (pre.map fun p => ((fmt (current == p.1) p.2).length : Int)).sum
        - ((fmt true mf).length : Int))
      ((pre.map fun p => fmt (current == p.1) p.2) ++ [fmt true mf]) hpost
    rw [hsuf]
    exact ⟨fmt true mf, by simp, hne, (fmt true mf).length,
      ((fmt true mf).take_length).symm⟩

/-- C2 amended-claim witness at a concrete input: budget 3 (height 5,
header 2), a 1-line block before the 2-line focal block. -/
theorem c2_focal_visible_witness :
    ∃ item ∈ collect_msgs_to_draw (fun _ (b : List Nat) => b) false 5 2 1
        [(0, [7]), (1, [8, 9])],
      item ≠ [] ∧ ∃ n : Nat, item = [8, 9].take n := by
  have := c2_focal_visible (fun _ (b : List Nat) => b) false 5 2 1
    [(0, [7])] [] [8, 9] (by simp) (by decide) (by decide)
  simpa using this

/-- C3 counterexample: with 8 available rows and focal index 2, the code
computes offset 0 (it scrolls only once the focal index reaches the item
count floor(R/2) and then bottom-aligns it), while the claimed centering
formula max(0, i - floor(R/(2H)) + 1) with H = 2 gives offset 1. -/
theorem c3_offset_mismatch :
    (ChatView.offset 8 2 : Int) = 0
    ∧ specChatOffset 8 2 ChatFormatter.height = 1
    ∧ (ChatView.offset 8 2 : Int) ≠ specChatOffset 8 2 ChatFormatter.height := by
  decide

/-- C3 (amended): the scroll offset equals max(0, i - floor(R/H) + 1) with
H = 2 (the focal item is the last of the window once scrolling starts, not
centered); floor(R/H) consecutive items starting at the offset are
rendered when enough chats exist; and every chat block is exactly
`ChatFormatter.height` = 2 lines, so no partial-item truncation occurs. -/
theorem c3_offset_and_count :
    (∀ R i : Nat, (ChatView.offset R i : Int)
        = max 0 ((i : Int) - (ChatView.limit R : Int) + 1))
    ∧ (∀ (γ : Type) (R i : Nat) (chats : List γ),
        ChatView.offset R i + ChatView.limit R ≤ chats.length →
        (ChatView.visible R i chats).length = ChatView.limit R)
    ∧ (∀ (E : ChatEnv) (chat : Chat) (selected : Bool) (width : Int),
        (ChatFormatter.format E chat selected width).length
          = ChatFormatter.height) := by
  refine ⟨?_, ?_, ?_⟩
  · intro R i
    unfold ChatView.offset
    split_ifs with h
    · omega
    · omega
  · intro γ R i chats h
    simp only [ChatView.visible, List.length_take, List.length_drop]
    omega
  · intro E chat selected width
    rfl

/-- C3 amended-claim witness at concrete inputs: 8 available rows, focal
index 7, an 11-item chat list, and a concrete chat row. -/
theorem c3_offset_and_count_witness :
    (ChatView.offset 8 7 : Int)
        = max 0 ((7 : Int) - (ChatView.limit 8 : Int) + 1)
    ∧ (ChatView.visible 8 7 [0, 1, 2, 3, 4, 5, 6, 7, 8, 9, 10]).length
        = ChatView.limit 8
    ∧ (ChatFormatter.format E0 chatA true 20).length = ChatFormatter.height :=
  ⟨c3_offset_and_count.1 8 7,
   c3_offset_and_count.2.1 Nat 8 7 [0, 1, 2, 3, 4, 5, 6, 7, 8, 9, 10]
     (by decide),
   c3_offset_and_count.2.2 E0 chatA true 20⟩

/-- C4 counterexample: a selected 2-line message (header plus one body
line) whose body run keeps the plain text color: bit 18 (`reverse`) is not
set in the body run's attributes, so not every run of the block gets the
reverse-video bit. -/
theorem c4_body_not_reversed :
    ¬ (∀ l ∈ MsgFormatter.format E0m true msgA chatA "hi" 10,
        ∀ p ∈ l.parts, p.attributes.testBit 18 = true) := by
  decide

/-- C4 (amended): for a selected message, every run of the header line has
the reverse-video bit (bit 18 of `reverse`) merged into its attributes,
while every wrapped body-line run carries the plain text color unchanged,
with no reverse transformation applied. -/
theorem c4_header_reversed_body_plain (E : MsgEnv) (m : Msg) (chat : Chat)
    (body : String) (width : Nat) :
    ∃ hdr rest, MsgFormatter.format E true m chat body width = hdr :: rest
    ∧ (∀ p ∈ hdr.parts, p.attributes.testBit 18 = true)
    ∧ (∀ l ∈ rest, ∀ p ∈ l.parts, p.attributes = E.text_color) := by
  refine ⟨_, _, rfl, ?_, ?_⟩
  · intro p hp
    have hbit : ∀ a : Nat, (a ||| reverse).testBit 18 = true := by
      intro a
      rw [Nat.testBit_or]
      have hr : reverse.testBit 18 = true := by decide
      rw [hr, Bool.or_true]
    simp only [List.mem_cons, List.not_mem_nil, or_false] at hp
    rcases hp with rfl | rfl | rfl <;>
      simp only [MsgFormatter.format_attributes, if_true] <;> exact hbit _
  · intro l hl p hp
    simp only [List.mem_map] at hl
    obtain ⟨s, _, rfl⟩ := hl
    simp only [List.mem_singleton] at hp
    subst hp
    rfl

/-- C10: the download field of `_get_download` is `None` exactly when the
size is absent or zero (so the percentage division is guarded by a nonzero
size), and every result is `None`, `yes`, `no`, or a floor percentage of a
nonzero size. -/
theorem c10_download_guard (lf : LocalFile) (size : Option Nat) :
    MsgFormatter.getDownload lf size = none
    ∨ MsgFormatter.getDownload lf size = some "yes"
    ∨ MsgFormatter.getDownload lf size = some "no"
    ∨ ∃ s : Nat, size = some s ∧ s ≠ 0
        ∧ MsgFormatter.getDownload lf size
          = some (toString (lf.downloaded_size * 100 / s) ++ "%") := by
  cases size with
  | none => exact Or.inl rfl
  | some s =>
    by_cases h0 : s = 0
    · exact Or.inl (by simp [MsgFormatter.getDownload, h0])
    · by_cases hc : lf.is_downloading_completed
      · exact Or.inr (Or.inl (by simp [MsgFormatter.getDownload, h0, hc]))
      · by_cases ha : lf.is_downloading_active
        · exact Or.inr (Or.inr (Or.inr ⟨s, rfl, h0,
            by simp [MsgFormatter.getDownload, h0, hc, ha]⟩))
        · exact Or.inr (Or.inr (Or.inl
            (by simp [MsgFormatter.getDownload, h0, hc, ha])))

/-- C5 counterexample: on the claim's chat the flags are muted, the
4-character counter and secret, in order, but the counter field is " 999"
(digits left-padded, right-aligned), not the right-padded "999 " that the
claim describes. -/
theorem c5_count_left_padded :
    ChatFormatter.flagsList E0 chatSecret = ["muted", " 999", "secret"]
    ∧ specRightPad4 999 = "999 "
    ∧ specRightPad4 999 ∉ ChatFormatter.flagsList E0 chatSecret := by
  decide

/-- C5 (amended): for every chat with unread count 1500, not marked
unread, not pinned, muted and of secret type, the flag list ends with
"muted", the right-aligned (left-padded) 4-character counter " 999"
capped at 999, and "secret", in that fixed order, whatever the
seen/action/online flags before them are. -/
theorem c5_flags_order (E : ChatEnv) (chat : Chat)
    (hcount : chat.unread_count = 1500)
    (hunread : chat.is_marked_as_unread = false)
    (hpin : chat.is_pinned = none ∨ chat.is_pinned = some false)
    (hmute : chat.mute_for ≠ 0)
    (hsecret : chat.chat_type = some ChatType.chatTypeSecret) :
    ["muted", " 999", "secret"] <:+ ChatFormatter.flagsList E chat := by
  have hpinned : (match chat.is_pinned with
      | some b => if b then ["pinned"] else []
      | none => ([] : List String)) = [] := by
    rcases hpin with hp | hp <;> simp [hp]
  have hmuted : (if chat.mute_for ≠ 0 then ["muted"] else []) = ["muted"] :=
    if_pos hmute
  have hunreadp : (if chat.is_marked_as_unread then ["unread"]
      else if chat.unread_count ≠ 0 then
        [pyAlignRight4 (min 999 chat.unread_count)]
      else ["    "]) = [" 999"] := by
    rw [hunread, hcount]; decide
  have hsecretp : (if chat.chat_type = some ChatType.chatTypeSecret then
      ["secret"] else []) = ["secret"] := if_pos hsecret
  unfold ChatFormatter.flagsList
  rw [hpinned, hmuted, hunreadp, hsecretp]
  have key : ∀ A B C : List String,
      ["muted", " 999", "secret"]
        <:+ A ++ B ++ C ++ [] ++ ["muted"] ++ [" 999"] ++ ["secret"] := by
    intro A B C
    exact ⟨A ++ B ++ C ++ [], by simp⟩
  exact key _ _ _

/-- C5 amended-claim witness: the concrete secret chat with unread count
1500 under the concrete environment. -/
theorem c5_flags_order_witness :
    ["muted", " 999", "secret"] <:+ ChatFormatter.flagsList E0 chatSecret :=
  c5_flags_order E0 chatSecret rfl rfl (Or.inl rfl) (by decide) rfl

/-- C6: for every message and chat, with the sending state (when present)
one of the two tdlib sending-state types known to the `states` table, the
flag list contains at most one of "new", "unseen" and "seen": the three
are produced by one if/elif/elif chain. -/
theorem c6_read_flags_exclusive (E : MsgEnv) (m : Msg) (chat : Chat)
    (hstate : m.sending_state = none
      ∨ m.sending_state = some "messageSendingStateFailed"
      ∨ m.sending_state = some "messageSendingStatePending") :
    (MsgFormatter.flagsList E m chat).countP
      (fun f => f == "new" || f == "unseen" || f == "seen") ≤ 1 := by
  unfold MsgFormatter.flagsList
  rcases hstate with h | h | h <;> rw [h] <;> split_ifs <;> decide

/-- C6 witness: a concrete unselected, unforwarded, unedited incoming
message without sending state. -/
theorem c6_read_flags_exclusive_witness :
    (MsgFormatter.flagsList E0m msgA chatA).countP
      (fun f => f == "new" || f == "unseen" || f == "seen") ≤ 1 :=
  c6_read_flags_exclusive E0m msgA chatA (Or.inl rfl)

/-- C7 counterexample: at width 0 the spacer length computed by
`ChatFormatter.format` is negative (the date, title, flags and fixed
offset exceed the width), not clamped to 0: here it is -18. -/
theorem c7_spacer_negative :
    ChatFormatter.spacer_len E0 chatA 0 = -18
    ∧ ChatFormatter.spacer_len E0 chatA 0 < 0 := by
  decide

/-- String concatenation concatenates the underlying character lists. -/
theorem string_data_append (a b : String) :
    (a ++ b).data = a.data ++ b.data := by
  cases a; cases b; rfl

/-- Display width is additive over concatenation. -/
theorem string_len_dwc_append (wide : Char → Bool) (a b : String) :
    string_len_dwc wide (a ++ b)
      = string_len_dwc wide a + string_len_dwc wide b := by
  simp [string_len_dwc, string_data_append]

/-- Display width of a repeated space under a narrow space character. -/
theorem string_len_dwc_spaces (wide : Char → Bool) (hsp : wide ' ' = false)
    (n : Int) : string_len_dwc wide (pyRepeatChar ' ' n) = n.toNat := by
  simp [string_len_dwc, pyRepeatChar, List.map_replicate, charWidth, hsp,
    List.sum_replicate, smul_eq_mul]

/-- C7 (amended): the computed spacer can be negative, but the emitted
spacer run is a space repeated max(0, spacer) times, so the first line's
total display width is exactly the target width whenever date, title and
flags fit (the flags column is right-aligned to the width), and the
content width otherwise. -/
theorem c7_line_width (E : ChatEnv) (chat : Chat) (selected : Bool)
    (width : Int) (hsp : E.wide ' ' = false) :
    ∃ l1 l2, ChatFormatter.format E chat selected width = [l1, l2]
    ∧ (lineWidth E.wide l1 : Int)
      = max width
        ((string_len_dwc E.wide (ChatFormatter.date E chat) : Int)
          + (string_len_dwc E.wide chat.title : Int)
          + (string_len_dwc E.wide (ChatFormatter.flagsString E chat) : Int)
          + 3) := by
  refine ⟨_, _, rfl, ?_⟩
  have hsw : string_len_dwc E.wide " " = 1 := by
    have h1 : (" " : String).data = [' '] := rfl
    simp [string_len_dwc, h1, charWidth, hsp]
  simp only [lineWidth, List.map_cons, List.map_nil, List.sum_cons,
    List.sum_nil, string_len_dwc_append, hsw,
    string_len_dwc_spaces E.wide hsp]
  rw [ChatFormatter.spacer_len]
  push_cast
  omega

/-- C7 amended-claim witness: the concrete chat at width 2 under the
all-narrow environment. -/
theorem c7_line_width_witness :
    ∃ l1 l2, ChatFormatter.format E0 chatA false 2 = [l1, l2]
    ∧ (lineWidth E0.wide l1 : Int)
      = max 2
        ((string_len_dwc E0.wide (ChatFormatter.date E0 chatA) : Int)
          + (string_len_dwc E0.wide chatA.title : Int)
          + (string_len_dwc E0.wide (ChatFormatter.flagsString E0 chatA) : Int)
          + 3) :=
  c7_line_width E0 chatA false 2 rfl

/-- C8: decoding the raw input 51 ('3'), 100 ('d'), 100 ('d') with the
source keybinding table returns the pair (3, "dd"): the digit accumulates
into the repeat prefix, the first 'd' continues because "dd" strictly
extends it, and the cycle stops exactly at the exact match "dd". -/
theorem c8_decode_repeat_dd :
    View.get_keys MULTICHAR_KEYBINDINGS
      (fun i => ([51, 100, 100] : List Int).getD i (-1)) = (3, "dd") := by
  decide

/-- C9: for every chat whose last message is absent (and a width leaving
room for the subtitle), the date renders as the literal placeholder and
the second line renders the placeholder subtitle with an empty sender
run. -/
theorem c9_no_last_message (E : ChatEnv) (chat : Chat) (selected : Bool)
    (width : Int) (hnone : chat.last_message = none)
    (hfit : (string_len_dwc E.wide "<No messages yet>" : Int) ≤ width - 10) :
    ChatFormatter.date E chat = "<No date>"
    ∧ ∃ l1 l2, ChatFormatter.format E chat selected width = [l1, l2]
      ∧ l1.parts.head? = some ⟨" <No date>",
          ChatFormatter.date_color E selected⟩
      ∧ l2.parts = [⟨"       ", ChatFormatter.subtitle_color E⟩,
          ⟨"", ChatFormatter.sender_color E ""⟩,
          ⟨"<No messages yet>", ChatFormatter.subtitle_color E⟩] := by
  have hdate : ChatFormatter.date E chat = "<No date>" := by
    simp [ChatFormatter.date, hnone]
  have hgld : ChatFormatter.getLastMsgData E chat
      = (none, "<No messages yet>") := by
    simp only [ChatFormatter.getLastMsgData, ChatFormatter.getLastMsg, hnone]
    decide
  have hcat : " " ++ ("<No date>" : String) = " <No date>" := by decide
  have hti : truncate_to_len E.wide "<No messages yet>"
      (width - (string_len_dwc E.wide "" : Int) - 10)
      = "<No messages yet>" := by
    unfold truncate_to_len
    rw [if_pos]
    have h0 : string_len_dwc E.wide "" = 0 := rfl
    rw [h0]
    omega
  refine ⟨hdate, _, _, rfl, ?_, ?_⟩
  · simp [ChatFormatter.format, hdate, hcat]
  · simp only [ChatFormatter.format, hgld, pyTruthyOptStr]
    simp [hti]

/-- C9 witness: the concrete chat without a last message at width 30. -/
theorem c9_no_last_message_witness :
    ChatFormatter.date E0 chatA = "<No date>"
    ∧ ∃ l1 l2, ChatFormatter.format E0 chatA false 30 = [l1, l2]
      ∧ l1.parts.head? = some ⟨" <No date>",
          ChatFormatter.date_color E0 false⟩
      ∧ l2.parts = [⟨"       ", ChatFormatter.subtitle_color E0⟩,
          ⟨"", ChatFormatter.sender_color E0 ""⟩,
          ⟨"<No messages yet>", ChatFormatter.subtitle_color E0⟩] :=
  c9_no_last_message E0 chatA false 30 rfl (by decide)

end Tg
